import Mathlib

/-!
Shallow embedding of the Prompt Queue Submission & Reconciliation Engine of
`src/shared-v5-ready/chat/use-chat-core.ts`.

The hook's mutable pieces of state (`messages`, `pendingQueueJobs`,
`pollIntervalRef`, `pollFailureCountRef`) are gathered into a `ChatState`
record, together with observation logs for emitted toasts, issued network
requests and regeneration calls.  Each async handler of the hook
(`submit`, the poll tick callback, `clearPolling`, the
`pendingQueueJobs.length === 0` effect, `handleCancelQueuedJob`, and the
chat-switch reset) becomes a pure state transformer; results of external
awaits (guest-uid resolution, the three gates, the enqueue / status /
cancel responses) are passed in as explicit environment values.
`submit` is split at its first suspension point into `submitStart`
(the synchronous prefix that inserts the optimistic message and the
tracking entry) and `submitFinish` (the continuation after the awaited
gates), mirroring where poll ticks can interleave with a submission.
-/

namespace ZolaQueue

/-- An optimistic attachment descriptor, as produced by
`createOptimisticAttachments` (`{name, contentType, url}`). -/
structure OptimisticAttachment where
  name : String
  contentType : String
  url : String
  deriving DecidableEq, Repr

/-- A transcript message as far as the engine observes it: its `id` and its
text `content` (parts/attachments are carried along for fidelity). -/
structure AppMessage where
  id : String
  content : String
  attachments : List OptimisticAttachment := []
  deriving DecidableEq, Repr

/-- Local coarse job status (`PendingQueueMessage.status`). -/
inductive JobStatus
  | pending
  | processing
  deriving DecidableEq, Repr

/-- A correlation-table entry (`PendingQueueMessage` in the source):
`clientId` is the locally generated optimistic id, `queueId` the server id,
absent until the enqueue response arrives. -/
structure PendingQueueMessage where
  clientId : String
  queueId : Option String := none
  status : JobStatus
  content : String
  optimisticAttachments : List OptimisticAttachment := []
  deriving DecidableEq, Repr

/-- Server-side job status as reported by the status endpoint. -/
inductive QueueEntryStatus
  | pending
  | processing
  | completed
  | failed
  | cancelled
  deriving DecidableEq, Repr

/-- One entry of the status endpoint's `queue` array. -/
structure QueueEntry where
  id : String
  status : QueueEntryStatus
  deriving DecidableEq, Repr

/-- The parsed body of a status response (`QueueStatusResponse`). -/
structure QueueStatusResponse where
  success : Bool
  queue : List QueueEntry
  error : Option String := none
  deriving DecidableEq, Repr

/-- Outcome of one poll tick's status request: either the transport /
parse layer threw, or a parsed response body came back. -/
inductive TickResult
  | transportError
  | response (r : QueueStatusResponse)
  deriving DecidableEq, Repr

/-- The `queue` object of a successful enqueue response. -/
structure QueueHandle where
  id : String
  status : String
  deriving DecidableEq, Repr

/-- Outcome of the enqueue request (`postJson` on `/api/prompt-queue/enqueue`):
transport / parse failure, or a parsed `{success, queue?, error?}` body. -/
inductive EnqueueOutcome
  | transportError
  | response (success : Bool) (queue : Option QueueHandle) (error : Option String)
  deriving DecidableEq, Repr

/-- A network request issued against one of the three queue endpoints.
Request bodies are recorded up to the fields the engine computes itself. -/
inductive Request
  | enqueue (userId : Option String) (chatId : String) (model : String)
      (isAuthenticated : Bool) (systemPrompt : String) (enableSearch : Bool)
      (messages : List AppMessage) (attachments : List String)
  | statusReq (userId : Option String) (isAuthenticated : Bool)
      (queueIds : List String)
  | cancel (queueId : String) (userId : Option String) (isAuthenticated : Bool)
  deriving DecidableEq, Repr

/-- The authenticated user profile, as far as the engine reads it
(`user?.id`). -/
structure UserProfile where
  id : String
  deriving DecidableEq, Repr

/-- The hook's mutable state plus observation logs.  `pollArmed` stands for
`pollIntervalRef.current !== null`, `cached` for the messages handed to
`cacheAndAddMessage`, `regenerateCalls` counts invocations of
`regenerate`, `toasts` records toast titles in emission order, `network`
records requests to the queue endpoints in issue order. -/
structure ChatState where
  messages : List AppMessage := []
  pendingQueueJobs : List PendingQueueMessage := []
  pollArmed : Bool := false
  pollFailureCount : Nat := 0
  toasts : List String := []
  network : List Request := []
  regenerateCalls : Nat := 0
  cached : List AppMessage := []
  deriving DecidableEq, Repr

/-- The initial state of a fresh session. -/
def initialState : ChatState := {}

/-- `MAX_QUEUE_POLL_FAILURES = 5`. -/
def MAX_QUEUE_POLL_FAILURES : Nat := 5

/-- `clearPolling`: clear the interval if armed and zero the failure
counter. -/
def clearPolling (s : ChatState) : ChatState :=
  { s with pollArmed := false, pollFailureCount := 0 }

/-- The `useEffect` on `pendingQueueJobs.length`: when the job list is
empty, `clearPolling()`. -/
def pollCleanupEffect (s : ChatState) : ChatState :=
  if s.pendingQueueJobs.isEmpty then clearPolling s else s

/-- The chat-switch reset at the top of the hook body: when the previous
`chatId` was non-null, the new one is null and the transcript is nonempty,
`setMessages([])`. -/
def chatSwitchReset (prevChatId chatId : Option String) (s : ChatState) : ChatState :=
  if prevChatId ≠ none ∧ chatId = none ∧ s.messages ≠ [] then
    { s with messages := [] }
  else s

/-- The queue ids the tick polls for: `activeJobs.map(j => j.queueId)`
filtered to non-empty strings. -/
def validQueueIds (jobs : List PendingQueueMessage) : List String :=
  jobs.filterMap fun job =>
    match job.queueId with
    | some id => if id.length > 0 then some id else none
    | none => none

/-- The failure path of a poll tick (`catch` block): increment the
consecutive-failure counter; at the ceiling, clear polling and emit the
one-time degraded-service toast. -/
def pollTickFail (s : ChatState) : ChatState :=
  let s := { s with pollFailureCount := s.pollFailureCount + 1 }
  if MAX_QUEUE_POLL_FAILURES ≤ s.pollFailureCount then
    let s := clearPolling s
    { s with toasts := s.toasts ++ ["Queue updates paused"] }
  else s

/-- The reconciliation filter of a successful tick
(`updatePendingQueueJobs(prev => prev.filter(...))`): jobs without a
`queueId` are kept; jobs whose `queueId` is in `failedIds` emit a
failure toast and are dropped; jobs whose `queueId` is in `completedIds`
are dropped; the rest are kept.  Returns the surviving jobs and the
toast titles emitted, in job order. -/
def reconcileJobs (completedIds failedIds : List String) :
    List PendingQueueMessage → List PendingQueueMessage × List String
  | [] => ([], [])
  | job :: rest =>
    let tail := reconcileJobs completedIds failedIds rest
    match job.queueId with
    | none => (job :: tail.1, tail.2)
    | some qid =>
      if failedIds.contains qid then
        (tail.1, "Queued message failed" :: tail.2)
      else if completedIds.contains qid then
        (tail.1, tail.2)
      else
        (job :: tail.1, tail.2)

/-- The entries a status response classifies as `completed`. -/
def completedEntries (r : QueueStatusResponse) : List QueueEntry :=
  r.queue.filter fun job => job.status = QueueEntryStatus.completed

/-- The entries a status response classifies as `failed` or `cancelled`. -/
def failedEntries (r : QueueStatusResponse) : List QueueEntry :=
  r.queue.filter fun job =>
    job.status = QueueEntryStatus.failed ∨ job.status = QueueEntryStatus.cancelled

/-- One execution of the poll interval callback.  `uid` and
`isAuthenticated` are the values captured by the closure at arm time;
`res` is the outcome the status endpoint produces for this tick.  A tick
only happens while the interval is armed. -/
def pollTick (uid : String) (isAuthenticated : Bool) (res : TickResult)
    (s : ChatState) : ChatState :=
  if !s.pollArmed then s
  else
    let activeJobs := s.pendingQueueJobs
    if activeJobs.isEmpty then clearPolling s
    else
      let queueIds := validQueueIds activeJobs
      if queueIds.isEmpty then s
      else
        let s := { s with
          network := s.network ++ [Request.statusReq (some uid) isAuthenticated queueIds] }
        match res with
        | TickResult.transportError => pollTickFail s
        | TickResult.response r =>
          if !r.success then pollTickFail s
          else
            let completed := completedEntries r
            let failed := failedEntries r
            if completed.isEmpty ∧ failed.isEmpty then s
            else
              let completedIds := completed.map QueueEntry.id
              let failedIds := failed.map QueueEntry.id
              let rec' := reconcileJobs completedIds failedIds s.pendingQueueJobs
              let s := { s with
                pendingQueueJobs := rec'.1,
                toasts := s.toasts ++ rec'.2 }
              if completed.isEmpty then s
              else { s with regenerateCalls := s.regenerateCalls + 1 }

/-- A sequence of poll ticks, applied left to right. -/
def pollTicks (ticks : List (String × Bool × TickResult)) (s : ChatState) : ChatState :=
  ticks.foldl (fun st t => pollTick t.1 t.2.1 t.2.2 st) s

/-- The environment of one `submit` call: the submission inputs captured at
call time and the results the awaited collaborators produce.
`guestUid` is the result of `getOrCreateGuestUserId(user)`;
`optimisticId` the freshly generated client id; `createdAttachments` the
result of `createOptimisticAttachments(files)`; `allowed` the rate-limit
gate; `chatIdResult` the chat-existence bootstrap; `uploadResult` the
upload gate (consulted only when `files` is nonempty); `enqueueOutcome`
the enqueue exchange; `maxLen` is `MESSAGE_MAX_LENGTH`. -/
structure SubmitEnv where
  guestUid : Option String
  optimisticId : String
  input : String
  files : List String := []
  createdAttachments : List OptimisticAttachment := []
  allowed : Bool
  chatIdResult : Option String
  uploadResult : Option (List String) := some []
  enqueueOutcome : EnqueueOutcome
  model : String := "default-model"
  isAuthenticated : Bool := false
  systemPrompt : String := "system"
  enableSearch : Bool := false
  maxLen : Nat := 10000
  deriving Repr

/-- The optimistic attachments of a submission:
`files.length > 0 ? createOptimisticAttachments(files) : []`. -/
def SubmitEnv.optimisticAttachments (env : SubmitEnv) : List OptimisticAttachment :=
  if env.files.isEmpty then [] else env.createdAttachments

/-- The optimistic transcript message inserted by `submit`. -/
def SubmitEnv.optimisticMessage (env : SubmitEnv) : AppMessage :=
  { id := env.optimisticId, content := env.input,
    attachments := env.optimisticAttachments }

/-- The eviction shared by every failure path of `submit`: remove the
optimistic message from the transcript and the tracking entry from the
correlation table (`cleanupOptimisticAttachments` is an external side
effect and leaves the engine state untouched). -/
def evictSubmission (optimisticId : String) (s : ChatState) : ChatState :=
  { s with
    messages := s.messages.filter fun m => m.id ≠ optimisticId,
    pendingQueueJobs := s.pendingQueueJobs.filter fun item => item.clientId ≠ optimisticId }

/-- The toast emitted by the message-length gate. -/
def lengthToast (maxLen : Nat) : String :=
  "The message you submitted was too long, please submit something shorter. (Max "
    ++ toString maxLen ++ " characters)"

/-- The synchronous prefix of `submit`, up to its first suspension point
after uid resolution: append the optimistic message to the transcript and
the `Pending` tracking entry (with `queueId` unset) to the correlation
table. -/
def submitStart (env : SubmitEnv) (s : ChatState) : ChatState :=
  let queueMessage : PendingQueueMessage :=
    { clientId := env.optimisticId, queueId := none, status := JobStatus.pending,
      content := env.input, optimisticAttachments := env.optimisticAttachments }
  { s with
    messages := s.messages ++ [env.optimisticMessage],
    pendingQueueJobs := s.pendingQueueJobs ++ [queueMessage] }

/-- The `catch` block of `submit`: evict the optimistic message and the
tracking entry and toast the generic "Failed to queue message" title. -/
def submitCatch (optimisticId : String) (s : ChatState) : ChatState :=
  let s := evictSubmission optimisticId s
  { s with toasts := s.toasts ++ ["Failed to queue message"] }

/-- The continuation of `submit` after the optimistic insert: run the
gates, issue the enqueue request, and on success attach the server id,
arm the poll interval and hand the optimistic message over to the cache.
`msgs0` is the render-time `messages` snapshot captured by the closure
(it does not contain the optimistic message, which the source therefore
concatenates explicitly into the request body). -/
def submitFinish (env : SubmitEnv) (uid : String) (msgs0 : List AppMessage)
    (s : ChatState) : ChatState :=
  if !env.allowed then evictSubmission env.optimisticId s
  else
    match env.chatIdResult with
    | none => evictSubmission env.optimisticId s
    | some currentChatId =>
      if env.maxLen < env.input.length then
        let s := { s with toasts := s.toasts ++ [lengthToast env.maxLen] }
        evictSubmission env.optimisticId s
      else
        let attachments? : Option (List String) :=
          if env.files.isEmpty then some [] else env.uploadResult
        match attachments? with
        | none => evictSubmission env.optimisticId s
        | some attachments =>
          let s := { s with
            network := s.network ++ [Request.enqueue (some uid) currentChatId env.model
              env.isAuthenticated env.systemPrompt env.enableSearch
              (msgs0 ++ [{ id := env.optimisticId, content := env.input }])
              attachments] }
          match env.enqueueOutcome with
          | EnqueueOutcome.transportError => submitCatch env.optimisticId s
          | EnqueueOutcome.response success queue _error =>
            match queue with
            | none => submitCatch env.optimisticId s
            | some handle =>
              if !success ∨ handle.id = "" then submitCatch env.optimisticId s
              else
                let s := { s with
                  pendingQueueJobs := s.pendingQueueJobs.map fun (item : PendingQueueMessage) =>
                    if item.clientId = env.optimisticId then
                      { item with
                        queueId := some handle.id,
                        status := if handle.status = "processing" then
                            JobStatus.processing
                          else JobStatus.pending }
                    else item }
                let s := if s.pollArmed then s else { s with pollArmed := true }
                let s := { s with
                  messages := s.messages.filter fun msg => msg.id ≠ env.optimisticId,
                  cached := s.cached ++ [env.optimisticMessage] }
                s

/-- One whole `submit` call: if uid resolution fails, nothing happens;
otherwise the optimistic insert followed by the gated enqueue
continuation (with the render-time message snapshot taken at entry). -/
def submit (env : SubmitEnv) (s : ChatState) : ChatState :=
  match env.guestUid with
  | none => s
  | some uid => submitFinish env uid s.messages (submitStart env s)

/-- The synchronous prefix of `handleCancelQueuedJob`: drop every job
whose `queueId` equals the cancelled one (jobs without a `queueId` are
kept), before any network activity. -/
def handleCancelSync (queueId : String) (s : ChatState) : ChatState :=
  { s with
    pendingQueueJobs := s.pendingQueueJobs.filter fun job => job.queueId ≠ some queueId }

/-- `handleCancelQueuedJob`: optimistically drop the job, then issue the
best-effort cancel request with `userId: user?.id`; when the request
throws (`remoteThrew`), emit the failure toast and leave the local state
as it is — no rollback. -/
def handleCancelQueuedJob (user : Option UserProfile) (isAuthenticated : Bool)
    (queueId : String) (remoteThrew : Bool) (s : ChatState) : ChatState :=
  let s := handleCancelSync queueId s
  let s := { s with
    network := s.network ++ [Request.cancel queueId (user.map UserProfile.id) isAuthenticated] }
  if remoteThrew then { s with toasts := s.toasts ++ ["Failed to cancel job"] }
  else s

/-- The ids of the transcript messages. -/
def messageIds (s : ChatState) : List String :=
  s.messages.map AppMessage.id

/-- The client ids of the correlation-table entries. -/
def jobClientIds (s : ChatState) : List String :=
  s.pendingQueueJobs.map PendingQueueMessage.clientId

/-- Whether some correlation-table entry carries a non-null server id. -/
def hasServerJob (s : ChatState) : Bool :=
  s.pendingQueueJobs.any fun job => job.queueId.isSome

/-- A failing tick outcome: the transport layer threw, or the response
body carried `success: false` (both land in the tick's `catch`). -/
def tickFails (res : TickResult) : Prop :=
  res = TickResult.transportError ∨
    ∃ r, res = TickResult.response r ∧ r.success = false

/-- Failure of any submission gate: rate limit, chat-existence bootstrap,
message-length ceiling, or (with attachments present) upload. -/
def gateFails (env : SubmitEnv) : Prop :=
  env.allowed = false ∨ env.chatIdResult = none ∨ env.maxLen < env.input.length ∨
    (env.files ≠ [] ∧ env.uploadResult = none)

/-- Correlation/transcript coupling established by successful submissions:
a tracked job that has acquired a server id no longer has its optimistic
message in the live transcript, because the submit success path evicts
the message in the same synchronous block that attaches the id. -/
def QueueMessageInvariant (s : ChatState) : Prop :=
  ∀ j ∈ s.pendingQueueJobs, j.queueId.isSome = true → j.clientId ∉ messageIds s

/-- Scenario A of the spec: submit "Hello" with no attachments as a guest;
the enqueue succeeds with `{id: "q1", status: "pending"}`. -/
def scenarioEnvA : SubmitEnv :=
  { guestUid := some "guest-1", optimisticId := "optimistic-1", input := "Hello",
    allowed := true, chatIdResult := some "chat-1",
    enqueueOutcome := EnqueueOutcome.response true (some ⟨"q1", "pending"⟩) none }

/-- The session state after scenario A's submit completed. -/
def stateAfterSubmitA : ChatState := submit scenarioEnvA initialState

/-- A status response reporting `q1` as completed. -/
def respCompletedQ1 : QueueStatusResponse :=
  { success := true, queue := [⟨"q1", QueueEntryStatus.completed⟩] }

/-- A status response reporting `q1` as still processing. -/
def respProcessingQ1 : QueueStatusResponse :=
  { success := true, queue := [⟨"q1", QueueEntryStatus.processing⟩] }

/-- A second submission ("World") issued while the first job is
outstanding. -/
def scenarioEnvB : SubmitEnv :=
  { scenarioEnvA with
    optimisticId := "optimistic-2", input := "World" }

/-- The state in which submission B has inserted its optimistic entries
(its awaited gates still in flight) when a poll tick reports `q1`
completed, after the `pendingQueueJobs.length` effect has settled. -/
def stateInterleaved : ChatState :=
  pollCleanupEffect
    (pollTick "guest-1" false (TickResult.response respCompletedQ1)
      (submitStart scenarioEnvB stateAfterSubmitA))

/-- One failing tick after scenario A. -/
def stateTickFail1 : ChatState :=
  pollTick "guest-1" false TickResult.transportError stateAfterSubmitA

/-- A round-tripped successful tick (job still processing) after the
failing one. -/
def stateTickSuccess2 : ChatState :=
  pollTick "guest-1" false (TickResult.response respProcessingQ1) stateTickFail1

/-- Four consecutive failing ticks after scenario A. -/
def stateFourFailures : ChatState :=
  pollTicks [("guest-1", false, TickResult.transportError),
    ("guest-1", false, TickResult.transportError),
    ("guest-1", false, TickResult.transportError),
    ("guest-1", false, TickResult.transportError)] stateAfterSubmitA

/-- A submission rejected by the rate-limit gate. -/
def scenarioEnvGate : SubmitEnv :=
  { scenarioEnvA with
    optimisticId := "optimistic-3", allowed := false }

/-- Scenario E: the enqueue endpoint responds
`{success: false, error: "rate limited"}`. -/
def scenarioEnvE : SubmitEnv :=
  { scenarioEnvA with
    optimisticId := "optimistic-8",
    enqueueOutcome := EnqueueOutcome.response false none (some "rate limited") }

/-- The state after scenario E's submit. -/
def stateEnqueueFail : ChatState := submit scenarioEnvE initialState

/-! ### Helper lemmas -/

theorem pollTickFail_messages (s : ChatState) :
    (pollTickFail s).messages = s.messages := by
  simp only [pollTickFail, clearPolling]
  split <;> rfl

/-- A poll tick never touches the visible transcript. -/
theorem pollTick_messages (uid : String) (auth : Bool) (res : TickResult)
    (s : ChatState) : (pollTick uid auth res s).messages = s.messages := by
  simp only [pollTick, clearPolling]
  repeat' first
  | rfl
  | exact pollTickFail_messages _
  | split

/-- A tick on a disarmed loop is a no-op: once the interval is cleared the
callback no longer runs. -/
theorem pollTick_not_armed (uid : String) (auth : Bool) (res : TickResult)
    (s : ChatState) (h : s.pollArmed = false) : pollTick uid auth res s = s := by
  unfold pollTick
  rw [h]
  rfl

theorem pollTicks_cons (t : String × Bool × TickResult)
    (ticks : List (String × Bool × TickResult)) (s : ChatState) :
    pollTicks (t :: ticks) s = pollTicks ticks (pollTick t.1 t.2.1 t.2.2 s) := rfl

/-- Any sequence of tick attempts on a disarmed loop is a no-op. -/
theorem pollTicks_not_armed (ticks : List (String × Bool × TickResult))
    (s : ChatState) (h : s.pollArmed = false) : pollTicks ticks s = s := by
  induction ticks with
  | nil => rfl
  | cons t rest ih =>
    rw [pollTicks_cons, pollTick_not_armed t.1 t.2.1 t.2.2 s h, ih]

/-- Jobs surviving reconciliation were already tracked and carry no
terminal server id. -/
theorem mem_reconcileJobs {c f : List String} {jobs : List PendingQueueMessage}
    {j : PendingQueueMessage} (h : j ∈ (reconcileJobs c f jobs).1) :
    j ∈ jobs ∧ ∀ q, j.queueId = some q → c.contains q = false ∧ f.contains q = false := by
  induction jobs with
  | nil => simp [reconcileJobs] at h
  | cons a rest ih =>
    simp only [reconcileJobs] at h
    cases hq : a.queueId with
    | none =>
      simp only [hq] at h
      rcases List.mem_cons.mp h with rfl | h2
      · exact ⟨List.mem_cons_self _ _, fun q hq2 => by rw [hq] at hq2; cases hq2⟩
      · exact ⟨List.mem_cons_of_mem _ (ih h2).1, (ih h2).2⟩
    | some qid =>
      simp only [hq] at h
      by_cases hf : f.contains qid = true
      · rw [if_pos hf] at h
        exact ⟨List.mem_cons_of_mem _ (ih h).1, (ih h).2⟩
      · rw [if_neg hf] at h
        by_cases hc : c.contains qid = true
        · rw [if_pos hc] at h
          exact ⟨List.mem_cons_of_mem _ (ih h).1, (ih h).2⟩
        · rw [if_neg hc] at h
          rcases List.mem_cons.mp h with rfl | h2
          · refine ⟨List.mem_cons_self _ _, fun q hq2 => ?_⟩
            rw [hq] at hq2
            cases hq2
            exact ⟨Bool.eq_false_iff.mpr hc, Bool.eq_false_iff.mpr hf⟩
          · exact ⟨List.mem_cons_of_mem _ (ih h2).1, (ih h2).2⟩

/-- On an armed loop with outstanding server ids, a round-tripped
successful response that classifies at least one id as terminal drives
the correlation table through the reconciliation filter. -/
theorem pollTick_response_reconcile (uid : String) (auth : Bool)
    (r : QueueStatusResponse) (s : ChatState)
    (harm : s.pollArmed = true)
    (hjobs : s.pendingQueueJobs.isEmpty = false)
    (hids : (validQueueIds s.pendingQueueJobs).isEmpty = false)
    (hsucc : r.success = true)
    (hterm : ¬((completedEntries r).isEmpty ∧ (failedEntries r).isEmpty)) :
    (pollTick uid auth (TickResult.response r) s).pendingQueueJobs
      = (reconcileJobs ((completedEntries r).map QueueEntry.id)
          ((failedEntries r).map QueueEntry.id) s.pendingQueueJobs).1 := by
  unfold pollTick
  rw [harm]
  simp only [Bool.not_true, Bool.false_eq_true, if_false, hjobs, hids, hsucc]
  rw [if_neg hterm]
  split <;> rfl

theorem pollTickFail_regenerateCalls (s : ChatState) :
    (pollTickFail s).regenerateCalls = s.regenerateCalls := by
  simp only [pollTickFail, clearPolling]
  split <;> rfl

/-- A nonempty witness makes `isEmpty` false. -/
theorem isEmpty_eq_false_of_mem {α : Type} {l : List α} {x : α} (h : x ∈ l) :
    l.isEmpty = false := by
  cases l with
  | nil => cases h
  | cons a t => rfl

/-- Evicting a submission removes its transcript message and tracking
entry and performs no network activity. -/
theorem evictSubmission_spec (optId : String) (s : ChatState) :
    optId ∉ messageIds (evictSubmission optId s) ∧
    optId ∉ jobClientIds (evictSubmission optId s) ∧
    (evictSubmission optId s).network = s.network := by
  unfold evictSubmission messageIds jobClientIds
  refine ⟨?_, ?_, rfl⟩ <;>
  · intro hmem
    obtain ⟨x, hx, hid⟩ := List.mem_map.mp hmem
    obtain ⟨_, hpred⟩ := List.mem_filter.mp hx
    simp [hid] at hpred

/-- The `catch` block of submit evicts both entries, emits the generic
failure toast, leaves the poll timer and the network log alone. -/
theorem submitCatch_spec (optId : String) (s : ChatState) :
    optId ∉ messageIds (submitCatch optId s) ∧
    optId ∉ jobClientIds (submitCatch optId s) ∧
    (submitCatch optId s).pollArmed = s.pollArmed ∧
    (submitCatch optId s).toasts = s.toasts ++ ["Failed to queue message"] ∧
    (submitCatch optId s).network = s.network :=
  ⟨(evictSubmission_spec optId s).1, (evictSubmission_spec optId s).2.1, rfl, rfl, rfl⟩

/-- When any gate fails, `submitFinish` is the shared eviction, possibly
preceded by the length-ceiling toast. -/
theorem submitFinish_gateFail (env : SubmitEnv) (uid : String)
    (msgs0 : List AppMessage) (s : ChatState) (hgate : gateFails env) :
    submitFinish env uid msgs0 s = evictSubmission env.optimisticId s ∨
    submitFinish env uid msgs0 s
      = evictSubmission env.optimisticId
          { s with toasts := s.toasts ++ [lengthToast env.maxLen] } := by
  cases ha : env.allowed with
  | false =>
    simp only [submitFinish, ha, Bool.not_false, if_true]
    exact Or.inl trivial
  | true =>
    cases hc : env.chatIdResult with
    | none =>
      simp only [submitFinish, ha, hc, Bool.not_true, Bool.false_eq_true, if_false]
      exact Or.inl trivial
    | some cid =>
      by_cases hl : env.maxLen < env.input.length
      · simp only [submitFinish, ha, hc, Bool.not_true, Bool.false_eq_true, if_false]
        rw [if_pos hl]
        exact Or.inr rfl
      · rcases hgate with ha2 | hc2 | hl2 | ⟨hf, hu⟩
        · rw [ha] at ha2
          cases ha2
        · rw [hc] at hc2
          cases hc2
        · exact absurd hl2 hl
        · have hfe : env.files.isEmpty = false := by
            cases hfl : env.files with
            | nil => exact absurd hfl hf
            | cons a t => rfl
          simp only [submitFinish, ha, hc, hfe, hu, Bool.not_true, Bool.false_eq_true,
            if_false]
          rw [if_neg hl]
          exact Or.inl rfl

/-! ### Claims -/

/-- C1, counterexample: in scenario A, at the tick that classifies `q1`
(the serverId of clientId `optimistic-1`) as completed, the optimistic
transcript entry is already absent before the tick runs, and the tick
leaves the transcript exactly as it was — the optimistic-message
eviction does not happen as part of the tick, so the claimed mechanism
(reading the `clientId` during the tick to evict the transcript entry)
is refuted at this concrete input. -/
theorem c1_counterexample :
    stateAfterSubmitA.pendingQueueJobs
        = [{ clientId := "optimistic-1", queueId := some "q1",
             status := JobStatus.pending, content := "Hello" }] ∧
    messageIds stateAfterSubmitA = [] ∧
    (pollTick "guest-1" false (TickResult.response respCompletedQ1)
        stateAfterSubmitA).messages = stateAfterSubmitA.messages :=
  ⟨rfl, rfl, rfl⟩

/-- C1, amended: when a poll tick's successful status response classifies
an outstanding job's serverId as terminal, after the tick the
correlation entry carrying that serverId is gone and the optimistic
transcript entry for the job's clientId is absent — but the transcript
is absent only because the successful submit already evicted it when the
serverId was attached (`QueueMessageInvariant`); the tick itself leaves
the transcript unchanged. -/
theorem c1_terminal_classification (uid : String) (auth : Bool)
    (r : QueueStatusResponse) (s : ChatState) (j : PendingQueueMessage) (q : String)
    (hinv : QueueMessageInvariant s)
    (harm : s.pollArmed = true)
    (hj : j ∈ s.pendingQueueJobs) (hq : j.queueId = some q) (hlen : 0 < q.length)
    (hsucc : r.success = true)
    (hterm : ∃ e ∈ r.queue, e.id = q ∧ (e.status = QueueEntryStatus.completed ∨
      e.status = QueueEntryStatus.failed ∨ e.status = QueueEntryStatus.cancelled)) :
    (∀ j2 ∈ (pollTick uid auth (TickResult.response r) s).pendingQueueJobs,
        j2.queueId ≠ some q) ∧
    j.clientId ∉ messageIds (pollTick uid auth (TickResult.response r) s) ∧
    (pollTick uid auth (TickResult.response r) s).messages = s.messages := by
  have hmsg : (pollTick uid auth (TickResult.response r) s).messages = s.messages :=
    pollTick_messages uid auth (TickResult.response r) s
  have hids : messageIds (pollTick uid auth (TickResult.response r) s) = messageIds s := by
    unfold messageIds
    rw [hmsg]
  obtain ⟨e, he, heq, hstat⟩ := hterm
  have hterm2 : e ∈ completedEntries r ∨ e ∈ failedEntries r := by
    rcases hstat with h1 | h2
    · exact Or.inl (List.mem_filter.mpr ⟨he, by simp [h1]⟩)
    · exact Or.inr (List.mem_filter.mpr ⟨he, by simp [h2]⟩)
  have hterm3 : ¬((completedEntries r).isEmpty = true ∧ (failedEntries r).isEmpty = true) := by
    rintro ⟨hc, hf⟩
    rcases hterm2 with hm | hm
    · rw [isEmpty_eq_false_of_mem hm] at hc
      cases hc
    · rw [isEmpty_eq_false_of_mem hm] at hf
      cases hf
  have hqvalid : q ∈ validQueueIds s.pendingQueueJobs := by
    unfold validQueueIds
    refine List.mem_filterMap.mpr ⟨j, hj, ?_⟩
    rw [hq]
    simp [hlen]
  have hrec := pollTick_response_reconcile uid auth r s harm
    (isEmpty_eq_false_of_mem hj) (isEmpty_eq_false_of_mem hqvalid) hsucc hterm3
  refine ⟨?_, ?_, hmsg⟩
  · intro j2 hj2 hcontra
    rw [hrec] at hj2
    have hkeep := (mem_reconcileJobs hj2).2 q hcontra
    have hqid : q ∈ (completedEntries r).map QueueEntry.id ∨
        q ∈ (failedEntries r).map QueueEntry.id := by
      rcases hterm2 with hm | hm
      · exact Or.inl (List.mem_map.mpr ⟨e, hm, heq⟩)
      · exact Or.inr (List.mem_map.mpr ⟨e, hm, heq⟩)
    rcases hqid with hm | hm
    · have := hkeep.1
      simp [List.contains, List.elem_eq_mem, hm] at this
    · have := hkeep.2
      simp [List.contains, List.elem_eq_mem, hm] at this
  · rw [hids]
    exact hinv j hj (by rw [hq]; rfl)

/-- C1, witness for the amended theorem: scenario A's tick. -/
theorem c1_terminal_classification_witness :
    (∀ j2 ∈ (pollTick "guest-1" false (TickResult.response respCompletedQ1)
        stateAfterSubmitA).pendingQueueJobs, j2.queueId ≠ some "q1") ∧
    "optimistic-1" ∉ messageIds (pollTick "guest-1" false
        (TickResult.response respCompletedQ1) stateAfterSubmitA) ∧
    (pollTick "guest-1" false (TickResult.response respCompletedQ1)
        stateAfterSubmitA).messages = stateAfterSubmitA.messages :=
  c1_terminal_classification "guest-1" false respCompletedQ1 stateAfterSubmitA
    { clientId := "optimistic-1", queueId := some "q1",
      status := JobStatus.pending, content := "Hello" } "q1"
    (by unfold QueueMessageInvariant; decide) rfl (by decide) rfl (by decide) rfl
    ⟨⟨"q1", QueueEntryStatus.completed⟩, by decide, rfl, Or.inl rfl⟩

/-- C2: in every poll tick, the regeneration request is issued at most
once, and it is issued (exactly once) only when the tick's status
response round-tripped successfully and classified at least one job as
completed. -/
theorem c2_regenerate_once_per_tick (uid : String) (auth : Bool)
    (res : TickResult) (s : ChatState) :
    (pollTick uid auth res s).regenerateCalls = s.regenerateCalls ∨
      ((pollTick uid auth res s).regenerateCalls = s.regenerateCalls + 1 ∧
        ∃ r, res = TickResult.response r ∧ r.success = true ∧
          (completedEntries r).isEmpty = false) := by
  simp only [pollTick, clearPolling]
  split
  · exact Or.inl rfl
  · split
    · exact Or.inl rfl
    · split
      · exact Or.inl rfl
      · split
        · exact Or.inl (pollTickFail_regenerateCalls _)
        · rename_i r
          split
          · exact Or.inl (pollTickFail_regenerateCalls _)
          · split
            · exact Or.inl rfl
            · split
              · exact Or.inl rfl
              · rename_i hsucc _ hcompleted
                refine Or.inr ⟨rfl, r, rfl, ?_, ?_⟩
                · revert hsucc
                  cases r.success <;> simp
                · revert hcompleted
                  cases (completedEntries r).isEmpty <;> simp

theorem pollTickFail_pollArmed (s : ChatState) :
    (pollTickFail s).pollArmed
      = if MAX_QUEUE_POLL_FAILURES ≤ s.pollFailureCount + 1 then false
        else s.pollArmed := by
  simp only [pollTickFail, clearPolling]
  split <;> simp_all

theorem pollTickFail_pollFailureCount (s : ChatState) :
    (pollTickFail s).pollFailureCount
      = if MAX_QUEUE_POLL_FAILURES ≤ s.pollFailureCount + 1 then 0
        else s.pollFailureCount + 1 := by
  simp only [pollTickFail, clearPolling]
  split <;> simp_all

theorem pollTickFail_pendingQueueJobs (s : ChatState) :
    (pollTickFail s).pendingQueueJobs = s.pendingQueueJobs := by
  simp only [pollTickFail, clearPolling]
  split <;> rfl

theorem pollTickFail_toasts (s : ChatState) :
    (pollTickFail s).toasts
      = if MAX_QUEUE_POLL_FAILURES ≤ s.pollFailureCount + 1 then
          s.toasts ++ ["Queue updates paused"]
        else s.toasts := by
  simp only [pollTickFail, clearPolling]
  split <;> simp_all

/-- On an armed loop with at least one valid queue id, a failing tick is
exactly the catch path applied after logging the status request. -/
theorem pollTick_fail_path (uid : String) (auth : Bool) (res : TickResult)
    (s : ChatState) (harm : s.pollArmed = true)
    (hids : (validQueueIds s.pendingQueueJobs).isEmpty = false)
    (hfail : tickFails res) :
    pollTick uid auth res s
      = pollTickFail { s with network := s.network
          ++ [Request.statusReq (some uid) auth (validQueueIds s.pendingQueueJobs)] } := by
  have hjobs : s.pendingQueueJobs.isEmpty = false := by
    cases hj : s.pendingQueueJobs with
    | nil => rw [hj] at hids; simp [validQueueIds] at hids
    | cons a t => rfl
  unfold pollTick
  rw [harm]
  simp only [Bool.not_true, Bool.false_eq_true, if_false, hjobs, hids]
  rcases hfail with rfl | ⟨r, rfl, hr⟩
  · rfl
  · simp only [hr, Bool.not_false, if_true]

/-- A round-tripped successful response leaves the poll timer as it was,
provided the job list was nonempty at tick time. -/
theorem pollTick_success_pollArmed (uid : String) (auth : Bool)
    (r : QueueStatusResponse) (s : ChatState)
    (hjobs : s.pendingQueueJobs.isEmpty = false) (hsucc : r.success = true) :
    (pollTick uid auth (TickResult.response r) s).pollArmed = s.pollArmed := by
  unfold pollTick clearPolling
  cases harm : s.pollArmed with
  | false =>
    simp only [Bool.not_false, if_true]
    try exact harm
  | true =>
    simp only [Bool.not_true, Bool.false_eq_true, if_false, hjobs, hsucc]
    repeat' first
    | rfl
    | exact harm
    | split

/-- A round-tripped successful response leaves the failure counter as it
was, provided the job list was nonempty at tick time. -/
theorem pollTick_success_pollFailureCount (uid : String) (auth : Bool)
    (r : QueueStatusResponse) (s : ChatState)
    (hjobs : s.pendingQueueJobs.isEmpty = false) (hsucc : r.success = true) :
    (pollTick uid auth (TickResult.response r) s).pollFailureCount
      = s.pollFailureCount := by
  unfold pollTick clearPolling
  cases harm : s.pollArmed with
  | false =>
    simp only [Bool.not_false, if_true]
    try exact harm
  | true =>
    simp only [Bool.not_true, Bool.false_eq_true, if_false, hjobs, hsucc]
    repeat' first
    | rfl
    | exact harm
    | split

/-- C3: when any submission gate fails — rate limit false, chat bootstrap
null, prompt over the length ceiling, or (with files present) upload
null — the optimistic transcript message and the tracking entry for the
submission's clientId are both evicted, and no request is issued against
any queue endpoint (in particular the enqueue endpoint is never
contacted). -/
theorem c3_gate_failure_shortcircuit (env : SubmitEnv) (s : ChatState)
    (uid : String) (huid : env.guestUid = some uid) (hgate : gateFails env) :
    env.optimisticId ∉ messageIds (submit env s) ∧
    env.optimisticId ∉ jobClientIds (submit env s) ∧
    (submit env s).network = s.network := by
  have hsub : submit env s = submitFinish env uid s.messages (submitStart env s) := by
    unfold submit
    rw [huid]
  have h := submitFinish_gateFail env uid s.messages (submitStart env s) hgate
  rcases h with h | h <;> rw [hsub, h]
  · exact ⟨(evictSubmission_spec _ _).1, (evictSubmission_spec _ _).2.1,
      (evictSubmission_spec _ _).2.2⟩
  · exact ⟨(evictSubmission_spec _ _).1, (evictSubmission_spec _ _).2.1,
      (evictSubmission_spec _ _).2.2⟩

/-- C3, witness: a submission rejected by the rate-limit gate. -/
theorem c3_gate_failure_shortcircuit_witness :
    "optimistic-3" ∉ messageIds (submit scenarioEnvGate initialState) ∧
    "optimistic-3" ∉ jobClientIds (submit scenarioEnvGate initialState) ∧
    (submit scenarioEnvGate initialState).network = initialState.network :=
  c3_gate_failure_shortcircuit scenarioEnvGate initialState "guest-1" rfl (Or.inl rfl)

/-- C4, counterexample: the state reached when a second submission has
registered its (not yet enqueued) tracking entry and a tick then
completes the first job is a point in the session where the poll timer
is armed while no correlation entry carries a non-null serverId — even
after the cleanup effect has settled — refuting the claimed
"armed iff some entry has non-null serverId" invariant. -/
theorem c4_counterexample :
    stateInterleaved.pollArmed = true ∧
    hasServerJob stateInterleaved = false ∧
    stateInterleaved.pendingQueueJobs ≠ [] := by
  refine ⟨rfl, rfl, ?_⟩
  decide

/-- C4, amended: the disarm events are characterized exactly — a tick
disarms the timer only when the job list is empty at tick time or a
failing tick reaches the failure ceiling; an armed timer with an empty
job list is disarmed by the next tick; the cleanup effect disarms
exactly when the job list is empty; no `submitFinish` path disarms the
timer.  (The timer may thus be armed while no entry has a serverId, and
disarmed at the ceiling while serverId entries remain.) -/
theorem c4_disarm_characterization :
    (∀ uid auth res s, s.pollArmed = true →
      (pollTick uid auth res s).pollArmed = false →
      s.pendingQueueJobs = [] ∨
        (tickFails res ∧ MAX_QUEUE_POLL_FAILURES ≤ s.pollFailureCount + 1)) ∧
    (∀ uid auth res s, s.pollArmed = true → s.pendingQueueJobs = [] →
      (pollTick uid auth res s).pollArmed = false) ∧
    (∀ s, (pollCleanupEffect s).pollArmed = false ↔
      (s.pollArmed = false ∨ s.pendingQueueJobs = [])) ∧
    (∀ env uid msgs0 s, s.pollArmed = true →
      (submitFinish env uid msgs0 s).pollArmed = true) := by
  refine ⟨?_, ?_, ?_, ?_⟩
  · intro uid auth res s harm hdis
    by_cases hj : s.pendingQueueJobs = []
    · exact Or.inl hj
    · have hje : s.pendingQueueJobs.isEmpty = false := by
        cases hjl : s.pendingQueueJobs with
        | nil => exact absurd hjl hj
        | cons a t => rfl
      cases hq : (validQueueIds s.pendingQueueJobs).isEmpty with
      | true =>
        unfold pollTick at hdis
        simp [harm, hje, hq] at hdis
      | false =>
        rcases hres : res with _ | r
        all_goals subst hres
        · by_cases hceil : MAX_QUEUE_POLL_FAILURES ≤ s.pollFailureCount + 1
          · exact Or.inr ⟨Or.inl rfl, hceil⟩
          · exfalso
            rw [pollTick_fail_path uid auth TickResult.transportError s harm hq
              (Or.inl rfl)] at hdis
            rw [pollTickFail_pollArmed] at hdis
            rw [if_neg hceil] at hdis
            rw [harm] at hdis
            cases hdis
        · cases hr : r.success with
          | false =>
            by_cases hceil : MAX_QUEUE_POLL_FAILURES ≤ s.pollFailureCount + 1
            · exact Or.inr ⟨Or.inr ⟨r, rfl, hr⟩, hceil⟩
            · exfalso
              rw [pollTick_fail_path uid auth (TickResult.response r) s harm hq
                (Or.inr ⟨r, rfl, hr⟩)] at hdis
              rw [pollTickFail_pollArmed] at hdis
              rw [if_neg hceil] at hdis
              rw [harm] at hdis
              cases hdis
          | true =>
            exfalso
            rw [pollTick_success_pollArmed uid auth r s hje hr] at hdis
            rw [harm] at hdis
            cases hdis
  · intro uid auth res s harm hj
    unfold pollTick clearPolling
    rw [harm, hj]
    rfl
  · intro s
    cases hl : s.pendingQueueJobs with
    | nil => simp [pollCleanupEffect, hl, clearPolling]
    | cons a t => simp [pollCleanupEffect, hl, clearPolling]
  · intro env uid msgs0 s h
    simp only [submitFinish, evictSubmission, submitCatch]
    repeat' first
    | exact h
    | rfl
    | split

/-- C4, witness for the amended theorem: the fifth consecutive failing
tick disarms, and the characterization names the ceiling as the cause. -/
theorem c4_disarm_characterization_witness :
    stateFourFailures.pendingQueueJobs = [] ∨
      (tickFails TickResult.transportError ∧
        MAX_QUEUE_POLL_FAILURES ≤ stateFourFailures.pollFailureCount + 1) :=
  c4_disarm_characterization.1 "guest-1" false TickResult.transportError
    stateFourFailures rfl rfl

/-- C5, counterexample: after one failing tick the counter is 1; the next
tick round-trips successfully (the status request is issued and a
success response with all jobs still processing comes back), yet the
counter remains 1 instead of resetting to zero as the claim states. -/
theorem c5_counterexample :
    stateTickFail1.pollFailureCount = 1 ∧
    stateTickSuccess2.network = stateTickFail1.network
      ++ [Request.statusReq (some "guest-1") false ["q1"]] ∧
    stateTickSuccess2.pollFailureCount = 1 :=
  ⟨rfl, rfl, rfl⟩

/-- C5, amended: the consecutive-failure counter increments by one on
every tick that ends in a transport/parse error or a `success: false`
response (dropping to zero when the increment reaches the ceiling, via
`clearPolling`), and a successful round-tripped tick leaves the counter
unchanged — it is reset only by `clearPolling`. -/
theorem c5_failure_counter :
    (∀ uid auth r s, s.pendingQueueJobs.isEmpty = false → r.success = true →
      (pollTick uid auth (TickResult.response r) s).pollFailureCount
        = s.pollFailureCount) ∧
    (∀ uid auth res s, s.pollArmed = true →
      (validQueueIds s.pendingQueueJobs).isEmpty = false → tickFails res →
      (pollTick uid auth res s).pollFailureCount
        = if MAX_QUEUE_POLL_FAILURES ≤ s.pollFailureCount + 1 then 0
          else s.pollFailureCount + 1) := by
  constructor
  · intro uid auth r s hjobs hsucc
    exact pollTick_success_pollFailureCount uid auth r s hjobs hsucc
  · intro uid auth res s harm hids hfail
    rw [pollTick_fail_path uid auth res s harm hids hfail]
    rw [pollTickFail_pollFailureCount]

/-- C5, witness for the amended theorem. -/
theorem c5_failure_counter_witness :
    (pollTick "guest-1" false (TickResult.response respProcessingQ1)
        stateTickFail1).pollFailureCount = stateTickFail1.pollFailureCount ∧
    (pollTick "guest-1" false TickResult.transportError
        stateAfterSubmitA).pollFailureCount
      = if MAX_QUEUE_POLL_FAILURES ≤ stateAfterSubmitA.pollFailureCount + 1 then 0
        else stateAfterSubmitA.pollFailureCount + 1 :=
  ⟨c5_failure_counter.1 "guest-1" false respProcessingQ1 stateTickFail1 rfl rfl,
   c5_failure_counter.2 "guest-1" false TickResult.transportError stateAfterSubmitA
     rfl rfl (Or.inl rfl)⟩

theorem pollTickFail_network (s : ChatState) :
    (pollTickFail s).network = s.network := by
  simp only [pollTickFail, clearPolling]
  split <;> rfl

/-- At the ceiling, the tick's catch path clears polling and emits the
degraded-service toast. -/
theorem pollTickFail_ceiling (s : ChatState)
    (h : MAX_QUEUE_POLL_FAILURES ≤ s.pollFailureCount + 1) :
    pollTickFail s = { s with
      pollArmed := false,
      pollFailureCount := 0,
      toasts := s.toasts ++ ["Queue updates paused"] } := by
  simp only [pollTickFail, clearPolling]
  rw [if_pos h]

/-- C6: on the failing tick that brings the consecutive-failure counter to
the ceiling of 5, the poll loop disarms, exactly one degraded-service
notification is emitted, the outstanding jobs remain in the correlation
table un-reconciled, and every subsequent tick attempt is a no-op — in
particular no further status request is ever issued in the session. -/
theorem c6_ceiling_degradation (uid : String) (auth : Bool) (res : TickResult)
    (s : ChatState)
    (harm : s.pollArmed = true)
    (hcount : s.pollFailureCount + 1 = MAX_QUEUE_POLL_FAILURES)
    (hids : (validQueueIds s.pendingQueueJobs).isEmpty = false)
    (hfail : tickFails res) :
    (pollTick uid auth res s).pollArmed = false ∧
    (pollTick uid auth res s).toasts = s.toasts ++ ["Queue updates paused"] ∧
    (pollTick uid auth res s).pendingQueueJobs = s.pendingQueueJobs ∧
    (∀ ticks, pollTicks ticks (pollTick uid auth res s)
      = pollTick uid auth res s) := by
  have hceil : MAX_QUEUE_POLL_FAILURES ≤ s.pollFailureCount + 1 := hcount.ge
  rw [pollTick_fail_path uid auth res s harm hids hfail]
  have hceil2 : MAX_QUEUE_POLL_FAILURES ≤
      ({ s with
        network := s.network
          ++ [Request.statusReq (some uid) auth (validQueueIds s.pendingQueueJobs)]
      } : ChatState).pollFailureCount + 1 := hceil
  rw [pollTickFail_ceiling _ hceil2]
  exact ⟨rfl, rfl, rfl, fun ticks => pollTicks_not_armed ticks _ rfl⟩

/-- C6, witness: the fifth consecutive transport failure after
scenario A. -/
theorem c6_ceiling_degradation_witness :
    (pollTick "guest-1" false TickResult.transportError
        stateFourFailures).pollArmed = false ∧
    (pollTick "guest-1" false TickResult.transportError stateFourFailures).toasts
      = stateFourFailures.toasts ++ ["Queue updates paused"] ∧
    (pollTick "guest-1" false TickResult.transportError
        stateFourFailures).pendingQueueJobs = stateFourFailures.pendingQueueJobs ∧
    (∀ ticks, pollTicks ticks (pollTick "guest-1" false TickResult.transportError
        stateFourFailures)
      = pollTick "guest-1" false TickResult.transportError stateFourFailures) :=
  c6_ceiling_degradation "guest-1" false TickResult.transportError stateFourFailures
    rfl rfl rfl (Or.inl rfl)

/-- C7: cancelling a Pending job that has a non-null serverId removes the
correlation entry synchronously, before the cancel round trip; the
optimistic transcript message for that job is absent at that same point
(it was evicted when the job acquired its serverId,
`QueueMessageInvariant`); whatever the remote outcome, the local state
is not restored; and a throwing cancel call emits the failure toast. -/
theorem c7_optimistic_cancel (user : Option UserProfile) (auth : Bool)
    (q : String) (remoteThrew : Bool) (s : ChatState) (j : PendingQueueMessage)
    (hinv : QueueMessageInvariant s) (hj : j ∈ s.pendingQueueJobs)
    (hq : j.queueId = some q) (hstatus : j.status = JobStatus.pending) :
    (∀ j2 ∈ (handleCancelSync q s).pendingQueueJobs, j2.queueId ≠ some q) ∧
    j.clientId ∉ messageIds (handleCancelSync q s) ∧
    (handleCancelQueuedJob user auth q remoteThrew s).pendingQueueJobs
      = (handleCancelSync q s).pendingQueueJobs ∧
    (handleCancelQueuedJob user auth q remoteThrew s).messages = s.messages ∧
    (remoteThrew = true →
      (handleCancelQueuedJob user auth q remoteThrew s).toasts
        = s.toasts ++ ["Failed to cancel job"]) := by
  refine ⟨?_, ?_, ?_, ?_, ?_⟩
  · intro j2 hj2
    have hpred := (List.mem_filter.mp hj2).2
    simpa using hpred
  · have hmsg : messageIds (handleCancelSync q s) = messageIds s := rfl
    rw [hmsg]
    exact hinv j hj (by rw [hq]; rfl)
  · cases remoteThrew <;> rfl
  · cases remoteThrew <;> rfl
  · intro h
    subst h
    rfl

/-- C7, witness: cancelling scenario A's job `q1` as a guest, where the
remote cancel call throws. -/
theorem c7_optimistic_cancel_witness :
    (∀ j2 ∈ (handleCancelSync "q1" stateAfterSubmitA).pendingQueueJobs,
      j2.queueId ≠ some "q1") ∧
    "optimistic-1" ∉ messageIds (handleCancelSync "q1" stateAfterSubmitA) ∧
    (handleCancelQueuedJob none false "q1" true stateAfterSubmitA).pendingQueueJobs
      = (handleCancelSync "q1" stateAfterSubmitA).pendingQueueJobs ∧
    (handleCancelQueuedJob none false "q1" true stateAfterSubmitA).messages
      = stateAfterSubmitA.messages ∧
    (true = true →
      (handleCancelQueuedJob none false "q1" true stateAfterSubmitA).toasts
        = stateAfterSubmitA.toasts ++ ["Failed to cancel job"]) :=
  c7_optimistic_cancel none false "q1" true stateAfterSubmitA
    { clientId := "optimistic-1", queueId := some "q1",
      status := JobStatus.pending, content := "Hello" }
    (by unfold QueueMessageInvariant; decide) (by decide) rfl rfl

/-- C8, counterexample: for scenario E (`{success: false, error: "rate
limited"}`), the optimistic message and tracking entry are indeed
removed and no timer is armed, but the user-visible toast is the
generic "Failed to queue message" — the server-provided "rate limited"
string never reaches the toast log, refuting the claim's last
conjunct. -/
theorem c8_counterexample :
    stateEnqueueFail.toasts = ["Failed to queue message"] ∧
    "rate limited" ∉ stateEnqueueFail.toasts ∧
    stateEnqueueFail.pollArmed = false ∧
    messageIds stateEnqueueFail = [] ∧
    jobClientIds stateEnqueueFail = [] := by
  refine ⟨rfl, ?_, rfl, rfl, rfl⟩
  decide

/-- C8, amended: on a `success: false` enqueue response the optimistic
message and tracking entry are both removed and the poll timer is not
armed for this job (it stays exactly as it was), but the failure toast
is the generic "Failed to queue message"; the server-provided error
string is only attached to the thrown error and logged, never shown. -/
theorem c8_enqueue_failure (env : SubmitEnv) (s : ChatState) (uid cid : String)
    (qh : Option QueueHandle) (err : Option String)
    (huid : env.guestUid = some uid)
    (hallow : env.allowed = true)
    (hchat : env.chatIdResult = some cid)
    (hlen : ¬ env.maxLen < env.input.length)
    (atts : List String)
    (hatt : (if env.files.isEmpty then some [] else env.uploadResult) = some atts)
    (hout : env.enqueueOutcome = EnqueueOutcome.response false qh err) :
    env.optimisticId ∉ messageIds (submit env s) ∧
    env.optimisticId ∉ jobClientIds (submit env s) ∧
    (submit env s).pollArmed = s.pollArmed ∧
    (submit env s).toasts = s.toasts ++ ["Failed to queue message"] := by
  have hsub : submit env s = submitFinish env uid s.messages (submitStart env s) := by
    unfold submit
    rw [huid]
  have hfin : submitFinish env uid s.messages (submitStart env s)
      = submitCatch env.optimisticId
          { submitStart env s with network := (submitStart env s).network
              ++ [Request.enqueue (some uid) cid env.model env.isAuthenticated
                  env.systemPrompt env.enableSearch
                  (s.messages ++ [{ id := env.optimisticId, content := env.input }])
                  atts] } := by
    simp only [submitFinish, hallow, hchat, hatt, hout, Bool.not_true,
      Bool.false_eq_true, if_false]
    rw [if_neg hlen]
    cases qh with
    | none => rfl
    | some handle => simp
  rw [hsub, hfin]
  exact ⟨(submitCatch_spec _ _).1, (submitCatch_spec _ _).2.1,
    (submitCatch_spec _ _).2.2.1, (submitCatch_spec _ _).2.2.2.1⟩

/-- C8, witness for the amended theorem: scenario E. -/
theorem c8_enqueue_failure_witness :
    "optimistic-8" ∉ messageIds (submit scenarioEnvE initialState) ∧
    "optimistic-8" ∉ jobClientIds (submit scenarioEnvE initialState) ∧
    (submit scenarioEnvE initialState).pollArmed = initialState.pollArmed ∧
    (submit scenarioEnvE initialState).toasts
      = initialState.toasts ++ ["Failed to queue message"] :=
  c8_enqueue_failure scenarioEnvE initialState "guest-1" "chat-1" none
    (some "rate limited") rfl rfl rfl (by decide) [] rfl rfl

/-- C9, counterexample: at a reachable state with a nonempty transcript,
an armed timer and a nonempty correlation table, the chat-switch reset
clears only the transcript: the poll timer stays armed, the correlation
table is retained (so the in-flight jobs are not dropped from local
tracking), and no cancel request is issued — refuting "the poll timer is
cleared and the correlation table is discarded". -/
theorem c9_counterexample :
    stateInterleaved.messages ≠ [] ∧
    (chatSwitchReset (some "chat-1") none stateInterleaved).messages = [] ∧
    (chatSwitchReset (some "chat-1") none stateInterleaved).pollArmed = true ∧
    (chatSwitchReset (some "chat-1") none stateInterleaved).pendingQueueJobs
      = stateInterleaved.pendingQueueJobs ∧
    stateInterleaved.pendingQueueJobs ≠ [] ∧
    (chatSwitchReset (some "chat-1") none stateInterleaved).network
      = stateInterleaved.network := by
  refine ⟨?_, ?_, ?_, ?_, ?_, ?_⟩ <;> decide

/-- C9, amended: when the owning conversation resets (previous chatId
non-null, new chatId null, transcript nonempty) only the visible
transcript is cleared; the poll timer, failure counter, correlation
table, toast log and network log are all left untouched — in particular
no server-side cancellation is issued, but the in-flight jobs are also
not discarded from local tracking. -/
theorem c9_session_reset (p : String) (s : ChatState) (hm : s.messages ≠ []) :
    (chatSwitchReset (some p) none s).messages = [] ∧
    (chatSwitchReset (some p) none s).pendingQueueJobs = s.pendingQueueJobs ∧
    (chatSwitchReset (some p) none s).pollArmed = s.pollArmed ∧
    (chatSwitchReset (some p) none s).pollFailureCount = s.pollFailureCount ∧
    (chatSwitchReset (some p) none s).network = s.network ∧
    (chatSwitchReset (some p) none s).toasts = s.toasts := by
  unfold chatSwitchReset
  rw [if_pos ⟨Option.some_ne_none p, rfl, hm⟩]
  exact ⟨rfl, rfl, rfl, rfl, rfl, rfl⟩

/-- C9, witness for the amended theorem. -/
theorem c9_session_reset_witness :
    (chatSwitchReset (some "chat-1") none stateInterleaved).messages = [] ∧
    (chatSwitchReset (some "chat-1") none stateInterleaved).pendingQueueJobs
      = stateInterleaved.pendingQueueJobs ∧
    (chatSwitchReset (some "chat-1") none stateInterleaved).pollArmed
      = stateInterleaved.pollArmed ∧
    (chatSwitchReset (some "chat-1") none stateInterleaved).pollFailureCount
      = stateInterleaved.pollFailureCount ∧
    (chatSwitchReset (some "chat-1") none stateInterleaved).network
      = stateInterleaved.network ∧
    (chatSwitchReset (some "chat-1") none stateInterleaved).toasts
      = stateInterleaved.toasts :=
  c9_session_reset "chat-1" stateInterleaved (by decide)

/-- C10: every cancel request carries `userId = user?.id` (none for a
guest session); a tick's status request and a submission's enqueue
request carry the uid resolved at submission time; concretely, in the
guest session of scenario A the enqueue request carried
`some "guest-1"` while the cancel request carries no userId. -/
theorem c10_user_id_asymmetry :
    (∀ user auth q thrown s, (handleCancelQueuedJob user auth q thrown s).network
        = s.network ++ [Request.cancel q (user.map UserProfile.id) auth]) ∧
    (∀ uid auth res s, (pollTick uid auth res s).network = s.network ∨
      (pollTick uid auth res s).network = s.network
        ++ [Request.statusReq (some uid) auth (validQueueIds s.pendingQueueJobs)]) ∧
    (∀ env uid s, env.guestUid = some uid →
      (submit env s).network = s.network ∨
      ∃ c atts, (submit env s).network = s.network
        ++ [Request.enqueue (some uid) c env.model env.isAuthenticated
            env.systemPrompt env.enableSearch
            (s.messages ++ [{ id := env.optimisticId, content := env.input }]) atts]) ∧
    ((handleCancelQueuedJob none false "q1" false stateAfterSubmitA).network
        = stateAfterSubmitA.network ++ [Request.cancel "q1" none false] ∧
      stateAfterSubmitA.network
        = [Request.enqueue (some "guest-1") "chat-1" "default-model" false "system"
            false [{ id := "optimistic-1", content := "Hello" }] []]) := by
  refine ⟨?_, ?_, ?_, rfl, rfl⟩
  · intro user auth q thrown s
    cases thrown <;> rfl
  · intro uid auth res s
    simp only [pollTick, clearPolling]
    repeat' first
    | exact Or.inl rfl
    | exact Or.inr rfl
    | exact Or.inr (pollTickFail_network _)
    | split
  · intro env uid s huid
    have hsub : submit env s = submitFinish env uid s.messages (submitStart env s) := by
      unfold submit
      rw [huid]
    rw [hsub]
    simp only [submitFinish]
    split
    · exact Or.inl (evictSubmission_spec _ _).2.2
    · split
      · exact Or.inl (evictSubmission_spec _ _).2.2
      · split
        · exact Or.inl (evictSubmission_spec _ _).2.2
        · split
          · exact Or.inl (evictSubmission_spec _ _).2.2
          · split
            · exact Or.inr ⟨_, _, (submitCatch_spec _ _).2.2.2.2⟩
            · split
              · exact Or.inr ⟨_, _, (submitCatch_spec _ _).2.2.2.2⟩
              · split
                · exact Or.inr ⟨_, _, (submitCatch_spec _ _).2.2.2.2⟩
                · split <;> exact Or.inr ⟨_, _, rfl⟩

/-- C10, witness: the enqueue conjunct applied to scenario A. -/
theorem c10_user_id_asymmetry_witness :
    (submit scenarioEnvA initialState).network = initialState.network ∨
    ∃ c atts, (submit scenarioEnvA initialState).network = initialState.network
      ++ [Request.enqueue (some "guest-1") c scenarioEnvA.model
          scenarioEnvA.isAuthenticated scenarioEnvA.systemPrompt
          scenarioEnvA.enableSearch
          (initialState.messages
            ++ [{ id := scenarioEnvA.optimisticId, content := scenarioEnvA.input }])
          atts] :=
  c10_user_id_asymmetry.2.2.1 scenarioEnvA "guest-1" initialState rfl

end ZolaQueue
